import Mathlib

/-!
Shallow embedding of `netbox_acls/forms/models.py`: the four NetBox ACL form
classes (`AccessListForm`, `ACLInterfaceAssignmentForm`, `ACLStandardRuleForm`,
`ACLExtendedRuleForm`) and their `clean` / `save` lifecycle methods.

Conventions of the embedding:
* Database rows and cleaned form values are records over `Nat` primary keys and
  `String` fields.  A `DynamicModelChoiceField`'s cleaned value is the selected
  database row itself, so records for cleaned choices carry the row fields the
  code reads back through `objects.get(pk=...)`.
* Django's error dict is an association list `ErrorMap`; the Python dict-update
  operator `|=` (and item assignment) is `setKey`, which replaces the value at a
  key.  `raise ValidationError("...")` with a bare string inside `Form.clean`
  attaches the message under the non-field key `"__all__"`, exactly as Django's
  `_clean_form` does via `add_error(None, e)`.
* `clean` returns `Except ErrorMap Unit`: `.ok ()` models returning
  `cleaned_data`, `.error m` models `raise forms.ValidationError(error_message)`.
* Python truthiness of optional model choices is `Option.isSome`; of strings,
  being nonempty; of lists, being nonempty.
-/

namespace NetboxAcls

/-- Django form error dictionary: field name ↦ list of messages. -/
abbrev ErrorMap := List (String × List String)

/-- Dict update at one key (Python `d[k] = v` / one key of `d |= {...}`):
the value at `k` is replaced, other keys are untouched. -/
def setKey (m : ErrorMap) (k : String) (v : List String) : ErrorMap :=
  (k, v) :: m.filter (fun p => p.1 != k)

/-- Dict lookup (Python `d.get(k)`). -/
def getKey (m : ErrorMap) (k : String) : Option (List String) :=
  (m.find? (fun p => p.1 == k)).map Prod.snd

/-- The error map of a `clean` outcome: empty when `clean` returned cleaned
data, the raised map otherwise. -/
def errorsOf : Except ErrorMap Unit → ErrorMap
  | .ok _ => []
  | .error m => m

/-! ### Data model

Host objects an `AccessList` can be assigned to (the generic foreign key
`assigned_object` ranges over `Device`, `VirtualChassis`, `VirtualMachine`). -/

inductive HostRef where
  | device (pk : Nat)
  | virtualChassis (pk : Nat)
  | virtualMachine (pk : Nat)
deriving DecidableEq

/-- A stored `AccessList` row, as read by the duplicate-name query. -/
structure AccessListRec where
  pk : Nat
  name : String
  assignedObject : HostRef
deriving DecidableEq

/-- `ACLTypeChoices.TYPE_STANDARD` (from `netbox_acls/choices.py`, imported by
the form module; the module itself is not under `src/`, the standard NetBox
choice value is the lowercase type name). -/
def TYPE_STANDARD : String := "standard"

/-- `ACLTypeChoices.TYPE_EXTENDED` (see `TYPE_STANDARD`). -/
def TYPE_EXTENDED : String := "extended"

/-! Error message constants used by `AccessListForm.clean`
(literal strings from the source). -/

def errorTooManyHostsMsg : String :=
  "Access Lists must be assigned to one host (either a device, virtual chassis or virtual machine) at a time."

def errorNoHostMsg : String :=
  "Access Lists must be assigned to a device, virtual chassis or virtual machine."

def errorSameAclNameMsg : String :=
  "An ACL with this name is already associated to this host."

def errorTypeChangeMsg : String :=
  "This ACL has ACL rules associated, CANNOT change ACL type."

/-- The bound state of an `AccessListForm` as `clean` sees it:
`cleaned_data` fields, the field-level error state of `name`, `changed_data`,
and the bound `instance` (its `pk` and whether related rule rows exist). -/
structure AccessListFormInput where
  nameError : Bool
  name : String
  aclType : String
  device : Option Nat
  virtualChassis : Option Nat
  virtualMachine : Option Nat
  changedData : List String
  instancePk : Option Nat
  instanceHasStdRules : Bool
  instanceHasExtRules : Bool
deriving DecidableEq

/-- `AccessList.objects.filter(name=name, <host_field>=<host>).exists()`:
some stored ACL has this name and is assigned to this host. -/
def existingAcls (db : List AccessListRec) (name : String) (host : HostRef) : Bool :=
  db.any fun a => decide (a.name = name ∧ a.assignedObject = host)

/-- The `if (device and virtual_chassis) or ... ` guard of
`AccessListForm.clean`: more than one host type selected. -/
def moreThanOneHost (f : AccessListFormInput) : Bool :=
  (f.device.isSome && f.virtualChassis.isSome)
    || (f.device.isSome && f.virtualMachine.isSome)
    || (f.virtualChassis.isSome && f.virtualMachine.isSome)

/-- The `if device: ... elif virtual_machine: ... else: ...` host dispatch of
`AccessListForm.clean`: the chosen `host_type` key and host value.  `none` is
the `not device and not virtual_chassis and not virtual_machine` case. -/
def hostFieldOf (f : AccessListFormInput) : Option (String × HostRef) :=
  match f.device with
  | some d => some ("device", .device d)
  | none =>
    match f.virtualMachine with
    | some v => some ("virtual_machine", .virtualMachine v)
    | none =>
      match f.virtualChassis with
      | some c => some ("virtual_chassis", .virtualChassis c)
      | none => none

/-- The duplicate-entry condition of `AccessListForm.clean`:
`("name" in self.changed_data or host_type in self.changed_data) and
existing_acls`. -/
def duplicateNameCondition (db : List AccessListRec) (f : AccessListFormInput)
    (hostType : String) (host : HostRef) : Bool :=
  (f.changedData.contains "name" || f.changedData.contains hostType)
    && existingAcls db f.name host

/-- The type-change condition of `AccessListForm.clean`: `self.instance.pk and
((acl_type == extended and self.instance.aclstandardrules.exists()) or
(acl_type == standard and self.instance.aclextendedrules.exists()))`. -/
def typeChangeCondition (f : AccessListFormInput) : Bool :=
  f.instancePk.isSome
    && ((f.aclType == TYPE_EXTENDED && f.instanceHasStdRules)
      || (f.aclType == TYPE_STANDARD && f.instanceHasExtRules))

/-- `AccessListForm.clean`. -/
def accessListFormClean (db : List AccessListRec) (f : AccessListFormInput) :
    Except ErrorMap Unit :=
  -- if self.errors.get("name"): return cleaned_data
  if f.nameError then .ok ()
  -- Check if more than one host type selected (bare-string raise → "__all__").
  else if moreThanOneHost f then
    .error (setKey [] "__all__" [errorTooManyHostsMsg])
  else
    match hostFieldOf f with
    -- Check if no hosts selected (bare-string raise → "__all__").
    | none => .error (setKey [] "__all__" [errorNoHostMsg])
    | some (hostType, host) =>
      let errorMessage : ErrorMap := []
      -- Check if duplicate entry.
      let errorMessage :=
        if duplicateNameCondition db f hostType host then
          setKey (setKey errorMessage hostType [errorSameAclNameMsg])
            "name" [errorSameAclNameMsg]
        else errorMessage
      -- Check the Access List has no existing rules before changing its type.
      let errorMessage :=
        if typeChangeCondition f then
          setKey errorMessage "type" [errorTypeChangeMsg]
        else errorMessage
      if errorMessage.isEmpty then .ok () else .error errorMessage

/-- Python `a or b` over optional values. -/
def pyOr {α : Type} (a b : Option α) : Option α :=
  match a with
  | some x => some x
  | none => b

/-- `AccessListForm.save`: `self.instance.assigned_object =
device or virtual_chassis or virtual_machine`. -/
def accessListFormSave (f : AccessListFormInput) : Option HostRef :=
  pyOr (f.device.map HostRef.device)
    (pyOr (f.virtualChassis.map HostRef.virtualChassis)
      (f.virtualMachine.map HostRef.virtualMachine))

/-! ### ACLInterfaceAssignmentForm -/

/-- The generic foreign key target of an `ACLInterfaceAssignment`: a physical
`Interface` or a `VMInterface` row (`assigned_object_type` content type plus
`assigned_object_id`). -/
inductive IfaceRef where
  | interface (pk : Nat)
  | vmInterface (pk : Nat)
deriving DecidableEq

/-- A cleaned `interface` choice: an `Interface` row and its parent
`.device` (read back via `Interface.objects.get(pk=...)`). -/
structure InterfaceRec where
  pk : Nat
  devicePk : Nat
deriving DecidableEq

/-- A cleaned `vminterface` choice: a `VMInterface` row and its parent
`.virtual_machine`. -/
structure VMInterfaceRec where
  pk : Nat
  virtualMachinePk : Nat
deriving DecidableEq

/-- A cleaned `access_list` choice: the `AccessList` row, carrying the
`assigned_object` that `AccessList.objects.get(pk=access_list.pk)` reads. -/
structure AccessListChoice where
  pk : Nat
  assignedObject : HostRef
deriving DecidableEq

/-- A stored `ACLInterfaceAssignment` row, as the two existence queries
filter it. -/
structure ACLInterfaceAssignmentRec where
  accessListPk : Nat
  assignedObject : IfaceRef
  direction : String
deriving DecidableEq

/-- The bound state of an `ACLInterfaceAssignmentForm` as `clean` sees it.
`access_list` is a required field of the form. -/
structure ACLInterfaceAssignmentFormInput where
  accessList : AccessListChoice
  direction : String
  interface : Option InterfaceRec
  vminterface : Option VMInterfaceRec
deriving DecidableEq

/-! Error message constants used by `ACLInterfaceAssignmentForm.clean`
(literal strings from the source). -/

def errorTooManyInterfacesMsg : String :=
  "Access Lists must be assigned to one type of interface at a time (VM interface or physical interface)"

def errorNoInterfaceMsg : String :=
  "An Access List assignment but specify an Interface or VM Interface."

def errorAclNotAssignedToHostMsg : String :=
  "Access List not present on selected host."

def errorDuplicateEntryMsg : String :=
  "An ACL with this name is already associated to this interface & direction."

def errorInterfaceAlreadyAssignedMsg : String :=
  "Interfaces can only have 1 Access List assigned in each direction."

/-- The values the `if interface: ... else: ...` branch of
`ACLInterfaceAssignmentForm.clean` computes once exactly one interface field
is set: `assigned_object_type` (key string), `host_type` (key string), the
parent `host`, and the GFK target.  `none` is the
`not (interface or vminterface)` case. -/
structure IfaceSelection where
  assignedObjectType : String
  hostType : String
  host : HostRef
  assignedObject : IfaceRef
deriving DecidableEq

def ifaceSelection (f : ACLInterfaceAssignmentFormInput) :
    Option IfaceSelection :=
  match f.interface, f.vminterface with
  | some i, none =>
    some ⟨"interface", "device", .device i.devicePk, .interface i.pk⟩
  | none, some v =>
    some ⟨"vminterface", "virtual_machine", .virtualMachine v.virtualMachinePk,
      .vmInterface v.pk⟩
  | _, _ => none

/-- `ACLInterfaceAssignment.objects.filter(access_list=..., assigned_object_id=...,
assigned_object_type=..., direction=...).exists()`. -/
def duplicateAssignmentExists (db : List ACLInterfaceAssignmentRec)
    (f : ACLInterfaceAssignmentFormInput) (sel : IfaceSelection) : Bool :=
  db.any fun r => decide (r.accessListPk = f.accessList.pk
    ∧ r.assignedObject = sel.assignedObject ∧ r.direction = f.direction)

/-- `ACLInterfaceAssignment.objects.filter(assigned_object_id=...,
assigned_object_type=..., direction=...).exists()` (any access list). -/
def directionAssignmentExists (db : List ACLInterfaceAssignmentRec)
    (f : ACLInterfaceAssignmentFormInput) (sel : IfaceSelection) : Bool :=
  db.any fun r => decide (r.assignedObject = sel.assignedObject
    ∧ r.direction = f.direction)

/-- The error map built by the `else` branch of
`ACLInterfaceAssignmentForm.clean` once exactly one interface field is set:
the host-membership, duplicate-entry and one-per-direction checks, in source
order, each updating `error_message` with `|=`. -/
def ifaceAssignmentChecks (db : List ACLInterfaceAssignmentRec)
    (f : ACLInterfaceAssignmentFormInput) (sel : IfaceSelection) : ErrorMap :=
  let errorMessage : ErrorMap := []
  -- Check that the interface's parent host carries the Access List.
  let errorMessage :=
    if f.accessList.assignedObject ≠ sel.host then
      setKey (setKey (setKey errorMessage
          "access_list" [errorAclNotAssignedToHostMsg])
        sel.assignedObjectType [errorAclNotAssignedToHostMsg])
        sel.hostType [errorAclNotAssignedToHostMsg]
    else errorMessage
  -- Check for duplicate entry.
  let errorMessage :=
    if duplicateAssignmentExists db f sel then
      setKey (setKey (setKey errorMessage
          "access_list" [errorDuplicateEntryMsg])
        "direction" [errorDuplicateEntryMsg])
        sel.assignedObjectType [errorDuplicateEntryMsg]
    else errorMessage
  -- Check the interface has no ACL applied in this direction already.
  let errorMessage :=
    if directionAssignmentExists db f sel then
      setKey (setKey errorMessage
        "direction" [errorInterfaceAlreadyAssignedMsg])
        sel.assignedObjectType [errorInterfaceAlreadyAssignedMsg]
    else errorMessage
  errorMessage

/-- `ACLInterfaceAssignmentForm.clean`. -/
def aclInterfaceAssignmentFormClean (db : List ACLInterfaceAssignmentRec)
    (f : ACLInterfaceAssignmentFormInput) : Except ErrorMap Unit :=
  -- Check if both interface and vminterface are set.
  if f.interface.isSome && f.vminterface.isSome then
    .error (setKey (setKey [] "interface" [errorTooManyInterfacesMsg])
      "vminterface" [errorTooManyInterfacesMsg])
  else
    match ifaceSelection f with
    -- Check if neither interface nor vminterface are set.
    | none =>
      .error (setKey (setKey [] "interface" [errorNoInterfaceMsg])
        "vminterface" [errorNoInterfaceMsg])
    | some sel =>
      let errorMessage := ifaceAssignmentChecks db f sel
      if errorMessage.isEmpty then .ok () else .error errorMessage

/-- `ACLInterfaceAssignmentForm.save`: `self.instance.assigned_object =
cleaned_data.get("interface") or cleaned_data.get("vminterface")`. -/
def aclInterfaceAssignmentFormSave (f : ACLInterfaceAssignmentFormInput) :
    Option IfaceRef :=
  pyOr (f.interface.map fun i => IfaceRef.interface i.pk)
    (f.vminterface.map fun v => IfaceRef.vmInterface v.pk)

/-! ### Rule forms

Error message constants from `netbox_acls/forms/constants.py` (imported by the
form module; the constants file is not under `src/`, texts are representative —
no claim depends on the literal message text, only on which key carries it). -/

def ERROR_MESSAGE_NO_REMARK : String :=
  "Action is set to remark, you MUST add a remark."

def ERROR_MESSAGE_ACTION_REMARK_SOURCE_PREFIX_SET : String :=
  "Action is set to remark, Source Prefix CANNOT be set."

def ERROR_MESSAGE_REMARK_WITHOUT_ACTION_REMARK : String :=
  "CANNOT set remark unless action is set to remark."

/-! Literal message strings of `ACLExtendedRuleForm._extracted_from_clean_20`. -/

def errorRemarkSourcePortsSetMsg : String :=
  "Action is set to remark, Source Ports CANNOT be set."

def errorRemarkDestinationPrefixSetMsg : String :=
  "Action is set to remark, Destination Prefix CANNOT be set."

def errorRemarkDestinationPortsSetMsg : String :=
  "Action is set to remark, Destination Ports CANNOT be set."

def errorRemarkProtocolSetMsg : String :=
  "Action is set to remark, Protocol CANNOT be set."

/-- The bound `cleaned_data` of an `ACLStandardRuleForm`: `action` and
`remark` choice/char fields (empty string = unset), `source_prefix` an
optional `Prefix` row pk. -/
structure ACLStandardRuleFormInput where
  action : String
  remark : String
  sourcePrefixPk : Option Nat
deriving DecidableEq

/-- The error map built by `ACLStandardRuleForm.clean`. -/
def aclStandardRuleChecks (f : ACLStandardRuleFormInput) : ErrorMap :=
  let errorMessage : ErrorMap := []
  if f.action == "remark" then
    -- Check if action set to remark, but no remark set.
    let errorMessage :=
      if f.remark == "" then
        setKey errorMessage "remark" [ERROR_MESSAGE_NO_REMARK]
      else errorMessage
    -- Check if action set to remark, but source_prefix set.
    if f.sourcePrefixPk.isSome then
      setKey errorMessage "source_prefix"
        [ERROR_MESSAGE_ACTION_REMARK_SOURCE_PREFIX_SET]
    else errorMessage
  -- Check remark set, but action not set to remark.
  else if f.remark != "" then
    setKey errorMessage "remark" [ERROR_MESSAGE_REMARK_WITHOUT_ACTION_REMARK]
  else errorMessage

/-- `ACLStandardRuleForm.clean`. -/
def aclStandardRuleFormClean (f : ACLStandardRuleFormInput) :
    Except ErrorMap Unit :=
  let errorMessage := aclStandardRuleChecks f
  if errorMessage.isEmpty then .ok () else .error errorMessage

/-- The bound `cleaned_data` of an `ACLExtendedRuleForm`: port lists are
`ArrayField`s (empty list = unset), `protocol` a choice field (empty string =
unset). -/
structure ACLExtendedRuleFormInput where
  action : String
  remark : String
  sourcePrefixPk : Option Nat
  sourcePorts : List Nat
  destinationPrefixPk : Option Nat
  destinationPorts : List Nat
  protocol : String
deriving DecidableEq

/-- `ACLExtendedRuleForm._extracted_from_clean_20`: the remark-action check
block, mutating `error_message`. -/
def extractedFromClean20 (f : ACLExtendedRuleFormInput)
    (errorMessage : ErrorMap) : ErrorMap :=
  -- Check if action set to remark, but no remark set.
  let errorMessage :=
    if f.remark == "" then
      setKey errorMessage "remark" [ERROR_MESSAGE_NO_REMARK]
    else errorMessage
  -- Check if action set to remark, but source_prefix set.
  let errorMessage :=
    if f.sourcePrefixPk.isSome then
      setKey errorMessage "source_prefix"
        [ERROR_MESSAGE_ACTION_REMARK_SOURCE_PREFIX_SET]
    else errorMessage
  -- Check if action set to remark, but source_ports set.
  let errorMessage :=
    if f.sourcePorts != [] then
      setKey errorMessage "source_ports" [errorRemarkSourcePortsSetMsg]
    else errorMessage
  -- Check if action set to remark, but destination_prefix set.
  let errorMessage :=
    if f.destinationPrefixPk.isSome then
      setKey errorMessage "destination_prefix"
        [errorRemarkDestinationPrefixSetMsg]
    else errorMessage
  -- Check if action set to remark, but destination_ports set.
  let errorMessage :=
    if f.destinationPorts != [] then
      setKey errorMessage "destination_ports"
        [errorRemarkDestinationPortsSetMsg]
    else errorMessage
  -- Check if action set to remark, but protocol set.
  let errorMessage :=
    if f.protocol != "" then
      setKey errorMessage "protocol" [errorRemarkProtocolSetMsg]
    else errorMessage
  errorMessage

/-- The error map built by `ACLExtendedRuleForm.clean`. -/
def aclExtendedRuleChecks (f : ACLExtendedRuleFormInput) : ErrorMap :=
  let errorMessage : ErrorMap := []
  if f.action == "remark" then extractedFromClean20 f errorMessage
  -- Check remark set, but action not set to remark.
  else if f.remark != "" then
    setKey errorMessage "remark" [ERROR_MESSAGE_REMARK_WITHOUT_ACTION_REMARK]
  else errorMessage

/-- `ACLExtendedRuleForm.clean`. -/
def aclExtendedRuleFormClean (f : ACLExtendedRuleFormInput) :
    Except ErrorMap Unit :=
  let errorMessage := aclExtendedRuleChecks f
  if errorMessage.isEmpty then .ok () else .error errorMessage

/-! ### Lemmas about the error dictionary -/

theorem getKey_setKey_self (m : ErrorMap) (k : String) (v : List String) :
    getKey (setKey m k v) k = some v := by
  simp [getKey, setKey, List.find?]

theorem find?_filter_ne (m : ErrorMap) (k k' : String) (h : k ≠ k') :
    (m.filter (fun p => p.1 != k')).find? (fun p => p.1 == k)
      = m.find? (fun p => p.1 == k) := by
  induction m with
  | nil => rfl
  | cons a t ih =>
    by_cases hk : a.1 = k
    · have hne : (a.1 != k') = true := by
        simp [bne_iff_ne, hk]; exact h
      have hbk : (a.1 == k) = true := by simp [hk]
      simp [List.filter, List.find?, hne, hbk, ih]
    · have hbk : (a.1 == k) = false := by simp [hk]
      by_cases hk' : a.1 = k'
      · have hne : (a.1 != k') = false := by simp [bne_iff_ne, hk']
        simp [List.filter, List.find?, hne, hbk, ih]
      · have hne : (a.1 != k') = true := by simp [bne_iff_ne, hk']
        simp [List.filter, List.find?, hne, hbk, ih]

theorem getKey_setKey_ne (m : ErrorMap) (k k' : String) (v : List String)
    (h : k ≠ k') : getKey (setKey m k' v) k = getKey m k := by
  have h' : (k' == k) = false := by
    simp only [beq_eq_false_iff_ne, ne_eq]
    exact fun hc => h hc.symm
  simp [getKey, setKey, List.find?, h', find?_filter_ne m k k' h]

theorem setKey_isEmpty (m : ErrorMap) (k : String) (v : List String) :
    (setKey m k v).isEmpty = false := rfl

/-- Looking up a key through a conditional update at a different key. -/
theorem getKey_ite_setKey (c : Prop) [Decidable c] (em : ErrorMap)
    (k k' : String) (v : List String) (h : k ≠ k') :
    getKey (if c then setKey em k' v else em) k = getKey em k := by
  by_cases hc : c
  · rw [if_pos hc]; exact getKey_setKey_ne _ _ _ _ h
  · rw [if_neg hc]

/-- A conditional update keeps a nonempty error map nonempty. -/
theorem ite_setKey_isEmpty (c : Prop) [Decidable c] (em : ErrorMap)
    (k : String) (v : List String) (h : em.isEmpty = false) :
    (if c then setKey em k v else em).isEmpty = false := by
  by_cases hc : c
  · rw [if_pos hc]; exact setKey_isEmpty _ _ _
  · rw [if_neg hc]; exact h

/-! ### Structural lemmas about the embedded forms -/

/-- The `host_type` key chosen by `AccessListForm.clean` is one of the three
host field names, and matches the host value's constructor. -/
theorem hostFieldOf_cases (f : AccessListFormInput) (ht : String)
    (host : HostRef) (h : hostFieldOf f = some (ht, host)) :
    ht = "device" ∨ ht = "virtual_machine" ∨ ht = "virtual_chassis" := by
  unfold hostFieldOf at h
  cases hd : f.device with
  | some d => simp [hd] at h; exact Or.inl h.1.symm
  | none =>
    cases hv : f.virtualMachine with
    | some v => simp [hd, hv] at h; exact Or.inr (Or.inl h.1.symm)
    | none =>
      cases hc : f.virtualChassis with
      | some c => simp [hd, hv, hc] at h; exact Or.inr (Or.inr h.1.symm)
      | none => simp [hd, hv, hc] at h

/-- When `ifaceSelection` picks a branch, the both-set guard is false and the
two key strings take one of the two source pairs. -/
theorem ifaceSelection_facts (f : ACLInterfaceAssignmentFormInput)
    (sel : IfaceSelection) (h : ifaceSelection f = some sel) :
    (f.interface.isSome && f.vminterface.isSome) = false
      ∧ ((sel.assignedObjectType = "interface" ∧ sel.hostType = "device")
        ∨ (sel.assignedObjectType = "vminterface"
          ∧ sel.hostType = "virtual_machine")) := by
  unfold ifaceSelection at h
  cases hi : f.interface with
  | some i =>
    cases hv : f.vminterface with
    | some v => simp [hi, hv] at h
    | none =>
      simp [hi, hv] at h
      exact ⟨rfl, Or.inl (by rw [← h]; exact ⟨rfl, rfl⟩)⟩
  | none =>
    cases hv : f.vminterface with
    | some v =>
      simp [hi, hv] at h
      exact ⟨rfl, Or.inr (by rw [← h]; exact ⟨rfl, rfl⟩)⟩
    | none => simp [hi, hv] at h

/-- An exact duplicate row also satisfies the weaker per-direction filter. -/
theorem direction_of_duplicate (db : List ACLInterfaceAssignmentRec)
    (f : ACLInterfaceAssignmentFormInput) (sel : IfaceSelection)
    (h : duplicateAssignmentExists db f sel = true) :
    directionAssignmentExists db f sel = true := by
  simp only [duplicateAssignmentExists, List.any_eq_true,
    decide_eq_true_eq] at h
  obtain ⟨r, hr, _, h2, h3⟩ := h
  simp only [directionAssignmentExists, List.any_eq_true, decide_eq_true_eq]
  exact ⟨r, hr, h2, h3⟩

/-- When no row occupies the (interface, direction) pair, there is in
particular no exact duplicate. -/
theorem no_duplicate_of_no_direction (db : List ACLInterfaceAssignmentRec)
    (f : ACLInterfaceAssignmentFormInput) (sel : IfaceSelection)
    (h : directionAssignmentExists db f sel = false) :
    duplicateAssignmentExists db f sel = false := by
  cases hd : duplicateAssignmentExists db f sel with
  | false => rfl
  | true =>
    rw [direction_of_duplicate db f sel hd] at h
    exact absurd h (by simp)

/-- Reduction of `AccessListForm.clean`-style epilogue for the interface
assignment form: with one interface selected, a nonempty check map is raised. -/
theorem aclIA_clean_eq_error (db : List ACLInterfaceAssignmentRec)
    (f : ACLInterfaceAssignmentFormInput) (sel : IfaceSelection)
    (hsel : ifaceSelection f = some sel)
    (h : (ifaceAssignmentChecks db f sel).isEmpty = false) :
    aclInterfaceAssignmentFormClean db f
      = .error (ifaceAssignmentChecks db f sel) := by
  have hboth := (ifaceSelection_facts f sel hsel).1
  simp [aclInterfaceAssignmentFormClean, hboth, hsel, h]

/-- The two key strings `ifaceSelection` can produce never collide with the
fixed keys `access_list` and `direction`, and differ from each other. -/
theorem ifaceSelection_key_ne (f : ACLInterfaceAssignmentFormInput)
    (sel : IfaceSelection) (h : ifaceSelection f = some sel) :
    sel.assignedObjectType ≠ "access_list"
      ∧ sel.assignedObjectType ≠ "direction"
      ∧ sel.hostType ≠ "access_list"
      ∧ sel.hostType ≠ "direction"
      ∧ sel.assignedObjectType ≠ sel.hostType := by
  rcases (ifaceSelection_facts f sel h).2 with ⟨h1, h2⟩ | ⟨h1, h2⟩ <;>
    rw [h1, h2] <;> refine ⟨by decide, by decide, by decide, by decide,
      by decide⟩

/-- A nonempty check map of either rule form is raised by its `clean`. -/
theorem stdClean_eq_error (f : ACLStandardRuleFormInput)
    (h : (aclStandardRuleChecks f).isEmpty = false) :
    aclStandardRuleFormClean f = .error (aclStandardRuleChecks f) := by
  simp [aclStandardRuleFormClean, h]

theorem extClean_eq_error (f : ACLExtendedRuleFormInput)
    (h : (aclExtendedRuleChecks f).isEmpty = false) :
    aclExtendedRuleFormClean f = .error (aclExtendedRuleChecks f) := by
  simp [aclExtendedRuleFormClean, h]

/-! ### Claim theorems -/

/-- C9: whenever field-level validation already recorded an error on `name`,
`AccessListForm.clean` returns cleaned data immediately — no host-exclusivity,
duplicate-name, or type-change check runs, whatever the rest of the input. -/
theorem accessListForm_name_error_short_circuit
    (db : List AccessListRec) (f : AccessListFormInput)
    (h : f.nameError = true) : accessListFormClean db f = .ok () := by
  simp [accessListFormClean, h]

theorem accessListForm_name_error_short_circuit_witness :
    accessListFormClean [⟨1, "a", HostRef.device 5⟩]
      ⟨true, "a", "standard", some 5, some 6, some 7, ["name"], some 1, true,
        true⟩ = .ok () :=
  accessListForm_name_error_short_circuit _ _ rfl

/-- C2 counterexample: with `device` and `virtual_machine` both set, `clean`
raises one bare-string `ValidationError`, which Django keys under the
non-field key `"__all__"`; no host-conflict error is keyed on the set host
fields `device` / `virtual_machine`, contrary to the claim. -/
theorem accessListForm_multi_host_error_not_per_field :
    accessListFormClean []
        ⟨false, "a", "standard", some 1, none, some 2, ["name"], none, false,
          false⟩
      = .error [("__all__", [errorTooManyHostsMsg])]
    ∧ getKey [("__all__", [errorTooManyHostsMsg])] "device" = none
    ∧ getKey [("__all__", [errorTooManyHostsMsg])] "virtual_machine" = none :=
  ⟨rfl, rfl, rfl⟩

/-- C2 (amended): validation rejects when more than one of
{device, virtual_chassis, virtual_machine} is set and when none is set, but
both failures are raised as a single non-field error (key `"__all__"`): a
host-conflict message in the more-than-one case and a "must be assigned"
message in the zero case — not errors keyed on the set host fields. -/
theorem accessListForm_host_exclusivity
    (db : List AccessListRec) (f : AccessListFormInput)
    (hname : f.nameError = false) :
    (moreThanOneHost f = true →
      accessListFormClean db f = .error [("__all__", [errorTooManyHostsMsg])])
    ∧ (f.device = none → f.virtualChassis = none → f.virtualMachine = none →
      accessListFormClean db f = .error [("__all__", [errorNoHostMsg])]) := by
  constructor
  · intro h
    simp [accessListFormClean, hname, h, setKey]
  · intro hd hc hv
    have hm : moreThanOneHost f = false := by
      simp [moreThanOneHost, hd, hc, hv]
    simp [accessListFormClean, hostFieldOf, hname, hm, hd, hc, hv, setKey]

theorem accessListForm_host_exclusivity_witness :
    accessListFormClean []
        ⟨false, "a", "standard", none, none, none, ["name"], none, false,
          false⟩
      = .error [("__all__", [errorNoHostMsg])] :=
  (accessListForm_host_exclusivity []
    ⟨false, "a", "standard", none, none, none, ["name"], none, false, false⟩
    rfl).2 rfl rfl rfl

/-- C1 counterexample: the database holds an ACL named "a" on device 5, the
submission proposes the same (name, host) pair, but neither `name` nor
`device` is in `changed_data` (an edit that changes nothing), so `clean`
succeeds — the claim requires it to fail. -/
theorem accessListForm_unchanged_duplicate_accepted :
    existingAcls [⟨1, "a", HostRef.device 5⟩] "a" (HostRef.device 5) = true
    ∧ accessListFormClean [⟨1, "a", HostRef.device 5⟩]
        ⟨false, "a", "standard", some 5, none, none, [], some 1, false, false⟩
      = .ok () :=
  ⟨rfl, rfl⟩

/-- C1 (amended): for every submission whose cleaned (name, chosen host) pair
matches a stored AccessList for that host, *and whose `changed_data` contains
`name` or the set host field's name*, `clean` fails and the error map carries
the duplicate-ACL message under both `name` and the set host field's key. -/
theorem accessListForm_duplicate_rejected_when_changed
    (db : List AccessListRec) (f : AccessListFormInput) (ht : String)
    (host : HostRef) (hname : f.nameError = false)
    (hmulti : moreThanOneHost f = false)
    (hhost : hostFieldOf f = some (ht, host))
    (hchanged : (f.changedData.contains "name"
      || f.changedData.contains ht) = true)
    (hex : existingAcls db f.name host = true) :
    ∃ m, accessListFormClean db f = .error m
      ∧ getKey m "name" = some [errorSameAclNameMsg]
      ∧ getKey m ht = some [errorSameAclNameMsg] := by
  have hcases := hostFieldOf_cases f ht host hhost
  have htname : ht ≠ "name" := by rcases hcases with h | h | h <;> simp [h]
  have httype : ht ≠ "type" := by rcases hcases with h | h | h <;> simp [h]
  have hchanged' : "name" ∈ f.changedData ∨ ht ∈ f.changedData := by
    simpa using hchanged
  have hdup : duplicateNameCondition db f ht host = true := by
    simp [duplicateNameCondition, hchanged', hex]
  cases hty : typeChangeCondition f with
  | true =>
    refine ⟨setKey (setKey (setKey [] ht [errorSameAclNameMsg])
      "name" [errorSameAclNameMsg]) "type" [errorTypeChangeMsg], ?_, ?_, ?_⟩
    · simp [accessListFormClean, hname, hmulti, hhost, hdup, hty, setKey]
    · rw [getKey_setKey_ne _ _ _ _ (by decide : "name" ≠ "type"),
        getKey_setKey_self]
    · rw [getKey_setKey_ne _ _ _ _ httype, getKey_setKey_ne _ _ _ _ htname,
        getKey_setKey_self]
  | false =>
    refine ⟨setKey (setKey [] ht [errorSameAclNameMsg])
      "name" [errorSameAclNameMsg], ?_, ?_, ?_⟩
    · simp [accessListFormClean, hname, hmulti, hhost, hdup, hty, setKey]
    · exact getKey_setKey_self _ _ _
    · rw [getKey_setKey_ne _ _ _ _ htname, getKey_setKey_self]

theorem accessListForm_duplicate_rejected_when_changed_witness :
    ∃ m, accessListFormClean [⟨1, "a", HostRef.device 5⟩]
        ⟨false, "a", "standard", some 5, none, none, ["name"], none, false,
          false⟩ = .error m
      ∧ getKey m "name" = some [errorSameAclNameMsg]
      ∧ getKey m "device" = some [errorSameAclNameMsg] :=
  accessListForm_duplicate_rejected_when_changed
    [⟨1, "a", HostRef.device 5⟩]
    ⟨false, "a", "standard", some 5, none, none, ["name"], none, false, false⟩
    "device" (HostRef.device 5) rfl rfl rfl rfl rfl

/-- C6: when editing an existing AccessList (instance has a pk), submitting
type extended while standard rules exist — or type standard while extended
rules exist — fails with the type-change error on `type`; with zero rules of
either type no error is recorded under `type`. -/
theorem accessListForm_type_change_guard
    (db : List AccessListRec) (f : AccessListFormInput) (ht : String)
    (host : HostRef) (hname : f.nameError = false)
    (hmulti : moreThanOneHost f = false)
    (hhost : hostFieldOf f = some (ht, host))
    (hpk : f.instancePk.isSome = true) :
    (f.aclType = TYPE_EXTENDED → f.instanceHasStdRules = true →
      ∃ m, accessListFormClean db f = .error m
        ∧ getKey m "type" = some [errorTypeChangeMsg])
    ∧ (f.aclType = TYPE_STANDARD → f.instanceHasExtRules = true →
      ∃ m, accessListFormClean db f = .error m
        ∧ getKey m "type" = some [errorTypeChangeMsg])
    ∧ (f.instanceHasStdRules = false → f.instanceHasExtRules = false →
      getKey (errorsOf (accessListFormClean db f)) "type" = none) := by
  have hcases := hostFieldOf_cases f ht host hhost
  have httype : ht ≠ "type" := by rcases hcases with h | h | h <;> simp [h]
  refine ⟨?_, ?_, ?_⟩
  · intro hty hstd
    have hcond : typeChangeCondition f = true := by
      simp [typeChangeCondition, hpk, hty, hstd]
    cases hdup : duplicateNameCondition db f ht host with
    | true =>
      refine ⟨setKey (setKey (setKey [] ht [errorSameAclNameMsg])
        "name" [errorSameAclNameMsg]) "type" [errorTypeChangeMsg], ?_,
        getKey_setKey_self _ _ _⟩
      simp [accessListFormClean, hname, hmulti, hhost, hdup, hcond, setKey]
    | false =>
      refine ⟨setKey [] "type" [errorTypeChangeMsg], ?_,
        getKey_setKey_self _ _ _⟩
      simp [accessListFormClean, hname, hmulti, hhost, hdup, hcond, setKey]
  · intro hty hext
    have hcond : typeChangeCondition f = true := by
      simp [typeChangeCondition, hpk, hty, hext]
    cases hdup : duplicateNameCondition db f ht host with
    | true =>
      refine ⟨setKey (setKey (setKey [] ht [errorSameAclNameMsg])
        "name" [errorSameAclNameMsg]) "type" [errorTypeChangeMsg], ?_,
        getKey_setKey_self _ _ _⟩
      simp [accessListFormClean, hname, hmulti, hhost, hdup, hcond, setKey]
    | false =>
      refine ⟨setKey [] "type" [errorTypeChangeMsg], ?_,
        getKey_setKey_self _ _ _⟩
      simp [accessListFormClean, hname, hmulti, hhost, hdup, hcond, setKey]
  · intro hstd hext
    have hcond : typeChangeCondition f = false := by
      simp [typeChangeCondition, hstd, hext]
    cases hdup : duplicateNameCondition db f ht host with
    | true =>
      have hclean : accessListFormClean db f
          = .error (setKey (setKey [] ht [errorSameAclNameMsg])
            "name" [errorSameAclNameMsg]) := by
        simp [accessListFormClean, hname, hmulti, hhost, hdup, hcond, setKey]
      rw [hclean]
      show getKey (setKey (setKey [] ht [errorSameAclNameMsg])
        "name" [errorSameAclNameMsg]) "type" = none
      rw [getKey_setKey_ne _ _ _ _ (by decide : "type" ≠ "name"),
        getKey_setKey_ne _ _ _ _ (fun hc => httype hc.symm)]
      rfl
    | false =>
      have hclean : accessListFormClean db f = .ok () := by
        simp [accessListFormClean, hname, hmulti, hhost, hdup, hcond]
      rw [hclean]
      rfl

theorem accessListForm_type_change_guard_witness :
    ∃ m, accessListFormClean []
        ⟨false, "a", "extended", none, some 3, none, [], some 1, true, false⟩
        = .error m
      ∧ getKey m "type" = some [errorTypeChangeMsg] :=
  (accessListForm_type_change_guard []
    ⟨false, "a", "extended", none, some 3, none, [], some 1, true, false⟩
    "virtual_chassis" (HostRef.virtualChassis 3) rfl rfl rfl rfl).1 rfl rfl

/-- C7: an `ACLInterfaceAssignmentForm` submission setting both `interface`
and `vminterface` fails with the too-many-interfaces error keyed on both
fields, and one setting neither fails with the no-interface error keyed on
both fields. -/
theorem aclInterfaceAssignmentForm_interface_exclusivity
    (db : List ACLInterfaceAssignmentRec)
    (f : ACLInterfaceAssignmentFormInput) :
    (f.interface.isSome = true → f.vminterface.isSome = true →
      ∃ m, aclInterfaceAssignmentFormClean db f = .error m
        ∧ getKey m "interface" = some [errorTooManyInterfacesMsg]
        ∧ getKey m "vminterface" = some [errorTooManyInterfacesMsg])
    ∧ (f.interface = none → f.vminterface = none →
      ∃ m, aclInterfaceAssignmentFormClean db f = .error m
        ∧ getKey m "interface" = some [errorNoInterfaceMsg]
        ∧ getKey m "vminterface" = some [errorNoInterfaceMsg]) := by
  constructor
  · intro hi hv
    refine ⟨setKey (setKey [] "interface" [errorTooManyInterfacesMsg])
      "vminterface" [errorTooManyInterfacesMsg], ?_, ?_,
      getKey_setKey_self _ _ _⟩
    · simp [aclInterfaceAssignmentFormClean, hi, hv]
    · rw [getKey_setKey_ne _ _ _ _ (by decide : "interface" ≠ "vminterface"),
        getKey_setKey_self]
  · intro hi hv
    refine ⟨setKey (setKey [] "interface" [errorNoInterfaceMsg])
      "vminterface" [errorNoInterfaceMsg], ?_, ?_,
      getKey_setKey_self _ _ _⟩
    · simp [aclInterfaceAssignmentFormClean, ifaceSelection, hi, hv]
    · rw [getKey_setKey_ne _ _ _ _ (by decide : "interface" ≠ "vminterface"),
        getKey_setKey_self]

theorem aclInterfaceAssignmentForm_interface_exclusivity_witness :
    ∃ m, aclInterfaceAssignmentFormClean []
        ⟨⟨1, HostRef.device 2⟩, "ingress", some ⟨7, 2⟩, some ⟨8, 3⟩⟩
        = .error m
      ∧ getKey m "interface" = some [errorTooManyInterfacesMsg]
      ∧ getKey m "vminterface" = some [errorTooManyInterfacesMsg] :=
  (aclInterfaceAssignmentForm_interface_exclusivity []
    ⟨⟨1, HostRef.device 2⟩, "ingress", some ⟨7, 2⟩, some ⟨8, 3⟩⟩).1 rfl rfl

/-- C8: after a clean pass established exactly one set field, `save` stores
exactly that field's value in the polymorphic `assigned_object`: the set host
field for `AccessListForm`, the set interface field for
`ACLInterfaceAssignmentForm`. -/
theorem formSave_assigns_selected_object
    (fa : AccessListFormInput) (fi : ACLInterfaceAssignmentFormInput) :
    (∀ d, fa.device = some d → fa.virtualChassis = none →
      fa.virtualMachine = none →
      accessListFormSave fa = some (HostRef.device d))
    ∧ (∀ c, fa.device = none → fa.virtualChassis = some c →
      fa.virtualMachine = none →
      accessListFormSave fa = some (HostRef.virtualChassis c))
    ∧ (∀ v, fa.device = none → fa.virtualChassis = none →
      fa.virtualMachine = some v →
      accessListFormSave fa = some (HostRef.virtualMachine v))
    ∧ (∀ i, fi.interface = some i → fi.vminterface = none →
      aclInterfaceAssignmentFormSave fi = some (IfaceRef.interface i.pk))
    ∧ (∀ v, fi.interface = none → fi.vminterface = some v →
      aclInterfaceAssignmentFormSave fi = some (IfaceRef.vmInterface v.pk)) := by
  refine ⟨?_, ?_, ?_, ?_, ?_⟩
  · intro d h1 h2 h3
    simp [accessListFormSave, pyOr, h1]
  · intro c h1 h2 h3
    simp [accessListFormSave, pyOr, h1, h2]
  · intro v h1 h2 h3
    simp [accessListFormSave, pyOr, h1, h2, h3]
  · intro i h1 h2
    simp [aclInterfaceAssignmentFormSave, pyOr, h1]
  · intro v h1 h2
    simp [aclInterfaceAssignmentFormSave, pyOr, h1, h2]

theorem formSave_assigns_selected_object_witness :
    accessListFormSave
        ⟨false, "a", "standard", none, some 4, none, [], none, false, false⟩
      = some (HostRef.virtualChassis 4) :=
  (formSave_assigns_selected_object
    ⟨false, "a", "standard", none, some 4, none, [], none, false, false⟩
    ⟨⟨1, HostRef.device 2⟩, "ingress", some ⟨7, 2⟩, none⟩).2.1 4 rfl rfl rfl

/-- C3: with exactly one interface field set, an existing assignment with the
same (access_list, interface, direction) makes `clean` fail carrying the
duplicate-entry error (it survives under `access_list`), and *any* existing
assignment on the same (interface, direction) — whatever its access list —
makes `clean` fail with the only-1-per-direction error keyed on `direction`
and on the set interface field. -/
theorem aclInterfaceAssignmentForm_duplicate_and_direction
    (db : List ACLInterfaceAssignmentRec)
    (f : ACLInterfaceAssignmentFormInput) (sel : IfaceSelection)
    (hsel : ifaceSelection f = some sel) :
    (duplicateAssignmentExists db f sel = true →
      ∃ m, aclInterfaceAssignmentFormClean db f = .error m
        ∧ getKey m "access_list" = some [errorDuplicateEntryMsg])
    ∧ (directionAssignmentExists db f sel = true →
      ∃ m, aclInterfaceAssignmentFormClean db f = .error m
        ∧ getKey m "direction" = some [errorInterfaceAlreadyAssignedMsg]
        ∧ getKey m sel.assignedObjectType
          = some [errorInterfaceAlreadyAssignedMsg]) := by
  obtain ⟨haot_al, haot_dir, _, _, _⟩ := ifaceSelection_key_ne f sel hsel
  have hal_aot : "access_list" ≠ sel.assignedObjectType :=
    fun hc => haot_al hc.symm
  have hdir_aot : "direction" ≠ sel.assignedObjectType :=
    fun hc => haot_dir hc.symm
  constructor
  · intro hdup
    have hdir := direction_of_duplicate db f sel hdup
    have hne : (ifaceAssignmentChecks db f sel).isEmpty = false := by
      simp only [ifaceAssignmentChecks]
      rw [if_pos hdir]
      exact setKey_isEmpty _ _ _
    refine ⟨ifaceAssignmentChecks db f sel,
      aclIA_clean_eq_error db f sel hsel hne, ?_⟩
    simp only [ifaceAssignmentChecks]
    rw [if_pos hdup, if_pos hdir]
    rw [getKey_setKey_ne _ _ _ _ hal_aot,
      getKey_setKey_ne _ _ _ _ (by decide : "access_list" ≠ "direction"),
      getKey_setKey_ne _ _ _ _ hal_aot,
      getKey_setKey_ne _ _ _ _ (by decide : "access_list" ≠ "direction"),
      getKey_setKey_self]
  · intro hdir
    have hne : (ifaceAssignmentChecks db f sel).isEmpty = false := by
      simp only [ifaceAssignmentChecks]
      rw [if_pos hdir]
      exact setKey_isEmpty _ _ _
    refine ⟨ifaceAssignmentChecks db f sel,
      aclIA_clean_eq_error db f sel hsel hne, ?_, ?_⟩
    · simp only [ifaceAssignmentChecks]
      rw [if_pos hdir]
      rw [getKey_setKey_ne _ _ _ _ hdir_aot, getKey_setKey_self]
    · simp only [ifaceAssignmentChecks]
      rw [if_pos hdir]
      exact getKey_setKey_self _ _ _

theorem aclInterfaceAssignmentForm_duplicate_and_direction_witness :
    ∃ m, aclInterfaceAssignmentFormClean
        [⟨2, IfaceRef.interface 7, "ingress"⟩]
        ⟨⟨1, HostRef.device 3⟩, "ingress", some ⟨7, 3⟩, none⟩ = .error m
      ∧ getKey m "direction" = some [errorInterfaceAlreadyAssignedMsg]
      ∧ getKey m "interface" = some [errorInterfaceAlreadyAssignedMsg] :=
  (aclInterfaceAssignmentForm_duplicate_and_direction
    [⟨2, IfaceRef.interface 7, "ingress"⟩]
    ⟨⟨1, HostRef.device 3⟩, "ingress", some ⟨7, 3⟩, none⟩
    ⟨"interface", "device", HostRef.device 3, IfaceRef.interface 7⟩
    rfl).2 rfl

/-- C10: a submission that exactly duplicates a stored
(access_list, interface, direction) assignment raises an error map holding
*both* messages: the duplicate-entry message (under `access_list`) and the
only-1-per-direction message (under `direction` and the interface field),
because the per-direction query does not exclude the same access list. -/
theorem aclInterfaceAssignmentForm_duplicate_raises_both_errors
    (db : List ACLInterfaceAssignmentRec)
    (f : ACLInterfaceAssignmentFormInput) (sel : IfaceSelection)
    (hsel : ifaceSelection f = some sel)
    (hdup : duplicateAssignmentExists db f sel = true) :
    ∃ m, aclInterfaceAssignmentFormClean db f = .error m
      ∧ getKey m "access_list" = some [errorDuplicateEntryMsg]
      ∧ getKey m "direction" = some [errorInterfaceAlreadyAssignedMsg]
      ∧ getKey m sel.assignedObjectType
        = some [errorInterfaceAlreadyAssignedMsg] := by
  obtain ⟨haot_al, haot_dir, _, _, _⟩ := ifaceSelection_key_ne f sel hsel
  have hal_aot : "access_list" ≠ sel.assignedObjectType :=
    fun hc => haot_al hc.symm
  have hdir_aot : "direction" ≠ sel.assignedObjectType :=
    fun hc => haot_dir hc.symm
  have hdir := direction_of_duplicate db f sel hdup
  have hne : (ifaceAssignmentChecks db f sel).isEmpty = false := by
    simp only [ifaceAssignmentChecks]
    rw [if_pos hdir]
    exact setKey_isEmpty _ _ _
  refine ⟨ifaceAssignmentChecks db f sel,
    aclIA_clean_eq_error db f sel hsel hne, ?_, ?_, ?_⟩
  · simp only [ifaceAssignmentChecks]
    rw [if_pos hdup, if_pos hdir]
    rw [getKey_setKey_ne _ _ _ _ hal_aot,
      getKey_setKey_ne _ _ _ _ (by decide : "access_list" ≠ "direction"),
      getKey_setKey_ne _ _ _ _ hal_aot,
      getKey_setKey_ne _ _ _ _ (by decide : "access_list" ≠ "direction"),
      getKey_setKey_self]
  · simp only [ifaceAssignmentChecks]
    rw [if_pos hdir]
    rw [getKey_setKey_ne _ _ _ _ hdir_aot, getKey_setKey_self]
  · simp only [ifaceAssignmentChecks]
    rw [if_pos hdir]
    exact getKey_setKey_self _ _ _

theorem aclInterfaceAssignmentForm_duplicate_raises_both_errors_witness :
    ∃ m, aclInterfaceAssignmentFormClean
        [⟨1, IfaceRef.interface 7, "ingress"⟩]
        ⟨⟨1, HostRef.device 3⟩, "ingress", some ⟨7, 3⟩, none⟩ = .error m
      ∧ getKey m "access_list" = some [errorDuplicateEntryMsg]
      ∧ getKey m "direction" = some [errorInterfaceAlreadyAssignedMsg]
      ∧ getKey m "interface" = some [errorInterfaceAlreadyAssignedMsg] :=
  aclInterfaceAssignmentForm_duplicate_raises_both_errors
    [⟨1, IfaceRef.interface 7, "ingress"⟩]
    ⟨⟨1, HostRef.device 3⟩, "ingress", some ⟨7, 3⟩, none⟩
    ⟨"interface", "device", HostRef.device 3, IfaceRef.interface 7⟩
    rfl rfl

/-- C5 counterexample: interface 7 (parent device 3) is chosen, the access
list is assigned to device 9 (a host mismatch), but an exact duplicate row
exists; the later duplicate check overwrites `access_list` via dict-update, so
the key `access_list` carries the duplicate message, not the required
"not present on host" message. -/
theorem aclInterfaceAssignmentForm_host_error_overridden :
    ifaceSelection ⟨⟨1, HostRef.device 9⟩, "ingress", some ⟨7, 3⟩, none⟩
      = some ⟨"interface", "device", HostRef.device 3, IfaceRef.interface 7⟩
    ∧ HostRef.device 9 ≠ HostRef.device 3
    ∧ getKey (errorsOf (aclInterfaceAssignmentFormClean
        [⟨1, IfaceRef.interface 7, "ingress"⟩]
        ⟨⟨1, HostRef.device 9⟩, "ingress", some ⟨7, 3⟩, none⟩)) "access_list"
      = some [errorDuplicateEntryMsg]
    ∧ [errorDuplicateEntryMsg] ≠ [errorAclNotAssignedToHostMsg] := by
  refine ⟨rfl, by decide, ?_, by decide⟩
  rfl

/-- C5 (amended): with exactly one interface field set, a mismatch between
the interface's parent host and the access list's assigned host makes `clean`
fail with the "not present on host" error keyed on `access_list`, the set
interface field and the corresponding host field — *provided no stored
assignment already occupies the same (interface, direction)* (otherwise the
later duplicate / per-direction dict-updates overwrite the `access_list` and
interface keys). -/
theorem aclInterfaceAssignmentForm_host_mismatch_rejected
    (db : List ACLInterfaceAssignmentRec)
    (f : ACLInterfaceAssignmentFormInput) (sel : IfaceSelection)
    (hsel : ifaceSelection f = some sel)
    (hmis : f.accessList.assignedObject ≠ sel.host)
    (hdir : directionAssignmentExists db f sel = false) :
    ∃ m, aclInterfaceAssignmentFormClean db f = .error m
      ∧ getKey m "access_list" = some [errorAclNotAssignedToHostMsg]
      ∧ getKey m sel.assignedObjectType = some [errorAclNotAssignedToHostMsg]
      ∧ getKey m sel.hostType = some [errorAclNotAssignedToHostMsg] := by
  obtain ⟨haot_al, _, hht_al, _, haot_ht⟩ := ifaceSelection_key_ne f sel hsel
  have hal_aot : "access_list" ≠ sel.assignedObjectType :=
    fun hc => haot_al hc.symm
  have hal_ht : "access_list" ≠ sel.hostType := fun hc => hht_al hc.symm
  have hdup := no_duplicate_of_no_direction db f sel hdir
  have hdup' : ¬ (duplicateAssignmentExists db f sel = true) := by simp [hdup]
  have hdir' : ¬ (directionAssignmentExists db f sel = true) := by simp [hdir]
  have hne : (ifaceAssignmentChecks db f sel).isEmpty = false := by
    simp only [ifaceAssignmentChecks]
    rw [if_neg hdir', if_neg hdup', if_pos hmis]
    exact setKey_isEmpty _ _ _
  refine ⟨ifaceAssignmentChecks db f sel,
    aclIA_clean_eq_error db f sel hsel hne, ?_, ?_, ?_⟩
  · simp only [ifaceAssignmentChecks]
    rw [if_neg hdir', if_neg hdup', if_pos hmis]
    rw [getKey_setKey_ne _ _ _ _ hal_ht, getKey_setKey_ne _ _ _ _ hal_aot,
      getKey_setKey_self]
  · simp only [ifaceAssignmentChecks]
    rw [if_neg hdir', if_neg hdup', if_pos hmis]
    rw [getKey_setKey_ne _ _ _ _ haot_ht, getKey_setKey_self]
  · simp only [ifaceAssignmentChecks]
    rw [if_neg hdir', if_neg hdup', if_pos hmis]
    exact getKey_setKey_self _ _ _

theorem aclInterfaceAssignmentForm_host_mismatch_rejected_witness :
    ∃ m, aclInterfaceAssignmentFormClean []
        ⟨⟨1, HostRef.device 9⟩, "egress", none, some ⟨8, 4⟩⟩ = .error m
      ∧ getKey m "access_list" = some [errorAclNotAssignedToHostMsg]
      ∧ getKey m "vminterface" = some [errorAclNotAssignedToHostMsg]
      ∧ getKey m "virtual_machine" = some [errorAclNotAssignedToHostMsg] :=
  aclInterfaceAssignmentForm_host_mismatch_rejected []
    ⟨⟨1, HostRef.device 9⟩, "egress", none, some ⟨8, 4⟩⟩
    ⟨"vminterface", "virtual_machine", HostRef.virtualMachine 4,
      IfaceRef.vmInterface 8⟩
    rfl (by decide) rfl

/-- C4: in both rule forms, action "remark" with an empty remark fails with
the no-remark error on `remark`; action "remark" with any applicable match
field set (source_prefix for the standard form; source_prefix, source_ports,
destination_prefix, destination_ports, protocol for the extended form) fails
with a cannot-be-set error keyed on that specific field; and a nonempty
remark with action ≠ "remark" fails with the remark-without-action error on
`remark`. -/
theorem ruleForms_remark_validation (s : ACLStandardRuleFormInput)
    (e : ACLExtendedRuleFormInput) :
    (s.action = "remark" → s.remark = "" →
      ∃ m, aclStandardRuleFormClean s = .error m
        ∧ getKey m "remark" = some [ERROR_MESSAGE_NO_REMARK])
    ∧ (s.action = "remark" → s.sourcePrefixPk.isSome = true →
      ∃ m, aclStandardRuleFormClean s = .error m
        ∧ getKey m "source_prefix"
          = some [ERROR_MESSAGE_ACTION_REMARK_SOURCE_PREFIX_SET])
    ∧ (s.action ≠ "remark" → s.remark ≠ "" →
      ∃ m, aclStandardRuleFormClean s = .error m
        ∧ getKey m "remark"
          = some [ERROR_MESSAGE_REMARK_WITHOUT_ACTION_REMARK])
    ∧ (e.action = "remark" → e.remark = "" →
      ∃ m, aclExtendedRuleFormClean e = .error m
        ∧ getKey m "remark" = some [ERROR_MESSAGE_NO_REMARK])
    ∧ (e.action = "remark" → e.sourcePrefixPk.isSome = true →
      ∃ m, aclExtendedRuleFormClean e = .error m
        ∧ getKey m "source_prefix"
          = some [ERROR_MESSAGE_ACTION_REMARK_SOURCE_PREFIX_SET])
    ∧ (e.action = "remark" → (e.sourcePorts != []) = true →
      ∃ m, aclExtendedRuleFormClean e = .error m
        ∧ getKey m "source_ports" = some [errorRemarkSourcePortsSetMsg])
    ∧ (e.action = "remark" → e.destinationPrefixPk.isSome = true →
      ∃ m, aclExtendedRuleFormClean e = .error m
        ∧ getKey m "destination_prefix"
          = some [errorRemarkDestinationPrefixSetMsg])
    ∧ (e.action = "remark" → (e.destinationPorts != []) = true →
      ∃ m, aclExtendedRuleFormClean e = .error m
        ∧ getKey m "destination_ports"
          = some [errorRemarkDestinationPortsSetMsg])
    ∧ (e.action = "remark" → e.protocol ≠ "" →
      ∃ m, aclExtendedRuleFormClean e = .error m
        ∧ getKey m "protocol" = some [errorRemarkProtocolSetMsg])
    ∧ (e.action ≠ "remark" → e.remark ≠ "" →
      ∃ m, aclExtendedRuleFormClean e = .error m
        ∧ getKey m "remark"
          = some [ERROR_MESSAGE_REMARK_WITHOUT_ACTION_REMARK]) := by
  refine ⟨?_, ?_, ?_, ?_, ?_, ?_, ?_, ?_, ?_, ?_⟩
  · intro ha hr
    have hab : (s.action == "remark") = true := by simp [ha]
    have hrb : (s.remark == "") = true := by simp [hr]
    have hne : (aclStandardRuleChecks s).isEmpty = false := by
      simp only [aclStandardRuleChecks]
      rw [if_pos hab, if_pos hrb]
      exact ite_setKey_isEmpty _ _ _ _ (setKey_isEmpty _ _ _)
    refine ⟨aclStandardRuleChecks s, stdClean_eq_error s hne, ?_⟩
    simp only [aclStandardRuleChecks]
    rw [if_pos hab, if_pos hrb]
    rw [getKey_ite_setKey _ _ _ _ _ (by decide : "remark" ≠ "source_prefix")]
    exact getKey_setKey_self _ _ _
  · intro ha hsp
    have hab : (s.action == "remark") = true := by simp [ha]
    have hne : (aclStandardRuleChecks s).isEmpty = false := by
      simp only [aclStandardRuleChecks]
      rw [if_pos hab, if_pos hsp]
      exact setKey_isEmpty _ _ _
    refine ⟨aclStandardRuleChecks s, stdClean_eq_error s hne, ?_⟩
    simp only [aclStandardRuleChecks]
    rw [if_pos hab, if_pos hsp]
    exact getKey_setKey_self _ _ _
  · intro ha hr
    have hab : ¬ ((s.action == "remark") = true) := by simp [ha]
    have hrb : (s.remark != "") = true := by simp [bne_iff_ne, hr]
    have hne : (aclStandardRuleChecks s).isEmpty = false := by
      simp only [aclStandardRuleChecks]
      rw [if_neg hab, if_pos hrb]
      exact setKey_isEmpty _ _ _
    refine ⟨aclStandardRuleChecks s, stdClean_eq_error s hne, ?_⟩
    simp only [aclStandardRuleChecks]
    rw [if_neg hab, if_pos hrb]
    exact getKey_setKey_self _ _ _
  · intro ha hr
    have hab : (e.action == "remark") = true := by simp [ha]
    have hrb : (e.remark == "") = true := by simp [hr]
    have hne : (aclExtendedRuleChecks e).isEmpty = false := by
      simp only [aclExtendedRuleChecks, extractedFromClean20]
      rw [if_pos hab, if_pos hrb]
      exact ite_setKey_isEmpty _ _ _ _ (ite_setKey_isEmpty _ _ _ _
        (ite_setKey_isEmpty _ _ _ _ (ite_setKey_isEmpty _ _ _ _
          (ite_setKey_isEmpty _ _ _ _ (setKey_isEmpty _ _ _)))))
    refine ⟨aclExtendedRuleChecks e, extClean_eq_error e hne, ?_⟩
    simp only [aclExtendedRuleChecks, extractedFromClean20]
    rw [if_pos hab, if_pos hrb]
    rw [getKey_ite_setKey _ _ _ _ _ (by decide : "remark" ≠ "protocol"),
      getKey_ite_setKey _ _ _ _ _
        (by decide : "remark" ≠ "destination_ports"),
      getKey_ite_setKey _ _ _ _ _
        (by decide : "remark" ≠ "destination_prefix"),
      getKey_ite_setKey _ _ _ _ _ (by decide : "remark" ≠ "source_ports"),
      getKey_ite_setKey _ _ _ _ _ (by decide : "remark" ≠ "source_prefix")]
    exact getKey_setKey_self _ _ _
  · intro ha hsp
    have hab : (e.action == "remark") = true := by simp [ha]
    have hne : (aclExtendedRuleChecks e).isEmpty = false := by
      simp only [aclExtendedRuleChecks, extractedFromClean20]
      rw [if_pos hab, if_pos hsp]
      exact ite_setKey_isEmpty _ _ _ _ (ite_setKey_isEmpty _ _ _ _
        (ite_setKey_isEmpty _ _ _ _ (ite_setKey_isEmpty _ _ _ _
          (setKey_isEmpty _ _ _))))
    refine ⟨aclExtendedRuleChecks e, extClean_eq_error e hne, ?_⟩
    simp only [aclExtendedRuleChecks, extractedFromClean20]
    rw [if_pos hab, if_pos hsp]
    rw [getKey_ite_setKey _ _ _ _ _
        (by decide : "source_prefix" ≠ "protocol"),
      getKey_ite_setKey _ _ _ _ _
        (by decide : "source_prefix" ≠ "destination_ports"),
      getKey_ite_setKey _ _ _ _ _
        (by decide : "source_prefix" ≠ "destination_prefix"),
      getKey_ite_setKey _ _ _ _ _
        (by decide : "source_prefix" ≠ "source_ports")]
    exact getKey_setKey_self _ _ _
  · intro ha hsp
    have hab : (e.action == "remark") = true := by simp [ha]
    have hne : (aclExtendedRuleChecks e).isEmpty = false := by
      simp only [aclExtendedRuleChecks, extractedFromClean20]
      rw [if_pos hab, if_pos hsp]
      exact ite_setKey_isEmpty _ _ _ _ (ite_setKey_isEmpty _ _ _ _
        (ite_setKey_isEmpty _ _ _ _ (setKey_isEmpty _ _ _)))
    refine ⟨aclExtendedRuleChecks e, extClean_eq_error e hne, ?_⟩
    simp only [aclExtendedRuleChecks, extractedFromClean20]
    rw [if_pos hab, if_pos hsp]
    rw [getKey_ite_setKey _ _ _ _ _
        (by decide : "source_ports" ≠ "protocol"),
      getKey_ite_setKey _ _ _ _ _
        (by decide : "source_ports" ≠ "destination_ports"),
      getKey_ite_setKey _ _ _ _ _
        (by decide : "source_ports" ≠ "destination_prefix")]
    exact getKey_setKey_self _ _ _
  · intro ha hsp
    have hab : (e.action == "remark") = true := by simp [ha]
    have hne : (aclExtendedRuleChecks e).isEmpty = false := by
      simp only [aclExtendedRuleChecks, extractedFromClean20]
      rw [if_pos hab, if_pos hsp]
      exact ite_setKey_isEmpty _ _ _ _ (ite_setKey_isEmpty _ _ _ _
        (setKey_isEmpty _ _ _))
    refine ⟨aclExtendedRuleChecks e, extClean_eq_error e hne, ?_⟩
    simp only [aclExtendedRuleChecks, extractedFromClean20]
    rw [if_pos hab, if_pos hsp]
    rw [getKey_ite_setKey _ _ _ _ _
        (by decide : "destination_prefix" ≠ "protocol"),
      getKey_ite_setKey _ _ _ _ _
        (by decide : "destination_prefix" ≠ "destination_ports")]
    exact getKey_setKey_self _ _ _
  · intro ha hsp
    have hab : (e.action == "remark") = true := by simp [ha]
    have hne : (aclExtendedRuleChecks e).isEmpty = false := by
      simp only [aclExtendedRuleChecks, extractedFromClean20]
      rw [if_pos hab, if_pos hsp]
      exact ite_setKey_isEmpty _ _ _ _ (setKey_isEmpty _ _ _)
    refine ⟨aclExtendedRuleChecks e, extClean_eq_error e hne, ?_⟩
    simp only [aclExtendedRuleChecks, extractedFromClean20]
    rw [if_pos hab, if_pos hsp]
    rw [getKey_ite_setKey _ _ _ _ _
      (by decide : "destination_ports" ≠ "protocol")]
    exact getKey_setKey_self _ _ _
  · intro ha hp
    have hab : (e.action == "remark") = true := by simp [ha]
    have hpb : (e.protocol != "") = true := by simp [bne_iff_ne, hp]
    have hne : (aclExtendedRuleChecks e).isEmpty = false := by
      simp only [aclExtendedRuleChecks, extractedFromClean20]
      rw [if_pos hab, if_pos hpb]
      exact setKey_isEmpty _ _ _
    refine ⟨aclExtendedRuleChecks e, extClean_eq_error e hne, ?_⟩
    simp only [aclExtendedRuleChecks, extractedFromClean20]
    rw [if_pos hab, if_pos hpb]
    exact getKey_setKey_self _ _ _
  · intro ha hr
    have hab : ¬ ((e.action == "remark") = true) := by simp [ha]
    have hrb : (e.remark != "") = true := by simp [bne_iff_ne, hr]
    have hne : (aclExtendedRuleChecks e).isEmpty = false := by
      simp only [aclExtendedRuleChecks]
      rw [if_neg hab, if_pos hrb]
      exact setKey_isEmpty _ _ _
    refine ⟨aclExtendedRuleChecks e, extClean_eq_error e hne, ?_⟩
    simp only [aclExtendedRuleChecks]
    rw [if_neg hab, if_pos hrb]
    exact getKey_setKey_self _ _ _

theorem ruleForms_remark_validation_witness :
    ∃ m, aclExtendedRuleFormClean ⟨"permit", "hello", none, [], none, [], ""⟩
        = .error m
      ∧ getKey m "remark" = some [ERROR_MESSAGE_REMARK_WITHOUT_ACTION_REMARK] :=
  (ruleForms_remark_validation ⟨"remark", "blocked", some 1⟩
    ⟨"permit", "hello", none, [], none, [], ""⟩).2.2.2.2.2.2.2.2.2
    (by decide) (by decide)

end NetboxAcls
